import Mathlib

/-!
Verification of the Flower task-distribution broker core:
task-message validation (`is_valid_task` in
`src/py/flwr/server/state/state.py`), the task store's delivery
semantics (abstract `State.get_task_ins`), the client-authentication
server interceptor (`src/py/flwr/server/server_interceptor.py`), and
the driver-side client (`src/py/flwr/driver/driver.py`).

Machine integers of the protocol buffers (`node_id : sint64`) are
modelled as `Int`; byte strings as `List Nat`; UUID task identifiers
and timestamps as `String`.

The file is laid out as definitions first (data model, source
translations, concrete test fixtures), then theorems.
-/

namespace Flower

/-! ## Data model (`flwr/proto/task_pb2`, `flwr/proto/node_pb2`)

A `Node` is an identifier plus an anonymity flag.  A `Task` envelope
carries an optional `producer`, a required `consumer` (a plain message
field in proto3: reading it when unset yields the default node, id 0
and `anonymous = false`), a `delivered_at` timestamp (empty string
until delivered) and an `ancestry` list of task identifiers.  `TaskIns`
and `TaskRes` wrap a `Task` with a generated `task_id`. -/

structure Node where
  node_id : Int
  anonymous : Bool
deriving DecidableEq, Repr

structure Task where
  producer : Option Node
  consumer : Node
  delivered_at : String
  ancestry : List String
deriving DecidableEq, Repr

structure TaskIns where
  task_id : String
  run_id : Int
  task : Task
deriving DecidableEq, Repr

structure TaskRes where
  task_id : String
  run_id : Int
  task : Task
deriving DecidableEq, Repr

/-- The Python `Union[TaskIns, TaskRes]` argument type of `is_valid_task`;
the `isinstance(message, TaskRes)` test becomes a match on the constructor. -/
inductive TaskMessage where
  | ins : TaskIns → TaskMessage
  | res : TaskRes → TaskMessage
deriving DecidableEq, Repr

def TaskMessage.task : TaskMessage → Task
  | .ins t => t.task
  | .res t => t.task

/-- `isinstance(message, TaskRes)`. -/
def TaskMessage.isRes : TaskMessage → Bool
  | .ins _ => false
  | .res _ => true

/-! ## `is_valid_task` (`state.py`, lines 29–78) -/

/-- The two producer early-return checks of `is_valid_task`, guarded in the
source by `message.task.HasField("producer")` (absence of the optional
field skips both checks). -/
def producer_invalid (task : Task) : Bool :=
  match task.producer with
  | some producer =>
      (producer.anonymous && producer.node_id != 0) ||
      (!producer.anonymous && producer.node_id == 0)
  | none => false

/-- `is_valid_task` of `state.py`: early-return `False` on a consumer
violating the anonymous/node_id coupling, on a present producer violating
it, or on a `TaskRes` with empty ancestry; otherwise `True`.  (The source's
logging on each failing branch has no bearing on the returned value.) -/
def is_valid_task (message : TaskMessage) : Bool :=
  if message.task.consumer.anonymous && message.task.consumer.node_id != 0 then
    false
  else if !message.task.consumer.anonymous && message.task.consumer.node_id == 0 then
    false
  else if producer_invalid message.task then
    false
  else if message.isRes && message.task.ancestry.isEmpty then
    false
  else
    true

/-- The validity invariants as the spec words them: the consumer satisfies
the anonymous/node_id coupling, a present producer satisfies the same
coupling, and a `TaskRes` has non-empty ancestry. -/
def specValidTask (m : TaskMessage) : Prop :=
  ((m.task.consumer.anonymous = true → m.task.consumer.node_id = 0) ∧
   (m.task.consumer.anonymous = false → m.task.consumer.node_id ≠ 0)) ∧
  (∀ p, m.task.producer = some p →
    (p.anonymous = true → p.node_id = 0) ∧ (p.anonymous = false → p.node_id ≠ 0)) ∧
  (m.isRes = true → m.task.ancestry ≠ [])

/-! ## Task store delivery semantics (`State.get_task_ins`)

`state.py` under `src/` declares `State.get_task_ins` only abstractly
(docstring constraints, lines 104–130); the concrete backend is not part
of the sources.  The store is therefore modelled from the spec as a list
of `TaskIns` records, and `get_task_ins` from the abstract docstring and
spec §4.1. -/

/-- The docstring's per-record filter of `get_task_ins`: with a `node_id`,
records whose consumer is that non-anonymous node and whose `delivered_at`
is `""`; without one, undelivered records addressed to the anonymous
consumer (`node_id == 0`, `anonymous == True`). -/
def task_ins_filter (node_id : Option Int) (t : TaskIns) : Bool :=
  match node_id with
  | some nid =>
      t.task.consumer.node_id == nid && !t.task.consumer.anonymous &&
        t.task.delivered_at == ""
  | none =>
      t.task.consumer.node_id == 0 && t.task.consumer.anonymous &&
        t.task.delivered_at == ""

/-- Setting `task_ins.task.delivered_at` to the current time. -/
def mark_delivered (now : String) (t : TaskIns) : TaskIns :=
  { t with task := { t.task with delivered_at := now } }

/-- Modelled from the spec: the selection-and-marking sweep of
`get_task_ins` (the concrete `State` backend is absent from the sources).
Walking the stored records, each one passing `task_ins_filter` is — until
the remaining-budget counter runs out — returned and simultaneously
marked delivered in the store; all other records are kept unchanged. -/
def get_task_ins_go (node_id : Option Int) (now : String) :
    List TaskIns → Nat → List TaskIns × List TaskIns
  | s, 0 => ([], s)
  | [], _ + 1 => ([], [])
  | t :: ts, n + 1 =>
      if task_ins_filter node_id t then
        let p := get_task_ins_go node_id now ts n
        (mark_delivered now t :: p.1, mark_delivered now t :: p.2)
      else
        let p := get_task_ins_go node_id now ts (n + 1)
        (p.1, t :: p.2)

/-- A `limit` of `None` does not bound the result; the store's length
bounds every sweep, so it serves as the budget in that case. -/
def eff_limit (limit : Option Nat) (s : List TaskIns) : Nat :=
  match limit with
  | some l => l
  | none => s.length

/-- Modelled from the spec: `get_task_ins(node_id, limit)` over a store
`s`, at current time `now`.  Returns the delivered instructions and the
updated store. -/
def get_task_ins (s : List TaskIns) (node_id : Option Int) (limit : Option Nat)
    (now : String) : List TaskIns × List TaskIns :=
  get_task_ins_go node_id now s (eff_limit limit s)

/-! ## Authentication interceptor (`server_interceptor.py`)

The crypto and serialization primitives (`base64`, the
`symmetric_encryption` helpers, protobuf `SerializeToString`) are
external trusted collaborators; they are abstracted as a record of
functions over abstract key types.  `grpc.ServicerContext.abort` raises,
so nothing after an `abort` executes; outcomes model this by
short-circuiting.  The interceptor's `state.get_client_public_keys()`
holds the key set stored at construction and is carried as a field. -/

inductive StatusCode where
  | ok
  | cancelled
  | unknown
  | invalid_argument
  | unauthenticated
  | unavailable
deriving DecidableEq, Repr

/-- The dynamic type of an incoming request: the four `isinstance` targets
of `_generic_method_handler`, plus a constructor for any other message
kind (caught by the final `else` of the source). -/
inductive RequestKind where
  | createNodeRequest
  | deleteNodeRequest
  | pullTaskInsRequest
  | pushTaskResRequest
  | otherRequest
deriving DecidableEq, Repr

structure Request where
  kind : RequestKind
  payload : List Nat
deriving DecidableEq, Repr

/-- External primitives used by the interceptor, over abstract private- and
public-key types: base64url codec, key/byte conversions, elliptic-curve
Diffie-Hellman shared-secret derivation, HMAC verification, and the
deterministic protobuf serialization `request.SerializeToString(True)`. -/
structure CryptoOps (Priv Pub : Type) where
  urlsafe_b64decode : List Nat → List Nat
  urlsafe_b64encode : List Nat → List Nat
  public_key_to_bytes : Pub → List Nat
  bytes_to_public_key : List Nat → Pub
  generate_shared_key : Priv → Pub → List Nat
  verify_hmac : List Nat → List Nat → List Nat → Bool
  serialize_to_string : Request → List Nat

structure AuthenticateServerInterceptor (Priv Pub : Type) where
  server_private_key : Priv
  server_public_key : Pub
  client_public_keys : List (List Nat)

/-- Result of one intercepted unary call: either the wrapped handler's
response together with the initial metadata sent during the call, or an
abort with a status code and message. -/
inductive Outcome (Resp : Type) where
  | forwarded (response : Resp) (initial_metadata : List (String × List Nat))
  | aborted (status : StatusCode) (msg : String)
deriving DecidableEq, Repr

def Outcome.isForwarded {Resp : Type} : Outcome Resp → Bool
  | .forwarded _ _ => true
  | .aborted _ _ => false

def PUBLIC_KEY_HEADER : String := "public-key"

def AUTH_TOKEN_HEADER : String := "auth-token"

/-- `_get_value_from_tuples` of `server_interceptor.py`: first value whose
key matches, defaulting to the empty (byte) string. -/
def get_value_from_tuples (key_string : String)
    (tuples : List (String × List Nat)) : List Nat :=
  match tuples.find? (fun p => p.1 == key_string) with
  | some p => p.2
  | none => []

/-- `_generic_method_handler` of `server_interceptor.py`, lines 102–153:
decode the `public-key` header, test membership in the registered key set;
for a known key: a `CreateNodeRequest` gets the server public key sent as
initial metadata and is forwarded; a `DeleteNodeRequest`,
`PullTaskInsRequest` or `PushTaskResRequest` is forwarded only if the HMAC
of the deterministically serialized body under the ECDH shared secret
verifies against the decoded `auth-token` header, otherwise the call is
aborted; any other request kind, and any unknown key, is aborted with
`UNAUTHENTICATED`/"Access denied!". -/
def generic_method_handler {Priv Pub Resp : Type} (ops : CryptoOps Priv Pub)
    (self : AuthenticateServerInterceptor Priv Pub)
    (message_handler : Request → Resp)
    (metadata : List (String × List Nat)) (request : Request) : Outcome Resp :=
  let client_public_key_bytes :=
    ops.urlsafe_b64decode (get_value_from_tuples PUBLIC_KEY_HEADER metadata)
  let is_public_key_known := client_public_key_bytes ∈ self.client_public_keys
  if is_public_key_known then
    if request.kind = RequestKind.createNodeRequest then
      Outcome.forwarded (message_handler request)
        [(PUBLIC_KEY_HEADER,
          ops.urlsafe_b64encode (ops.public_key_to_bytes self.server_public_key))]
    else if request.kind = RequestKind.deleteNodeRequest ∨
        request.kind = RequestKind.pullTaskInsRequest ∨
        request.kind = RequestKind.pushTaskResRequest then
      let hmac_value :=
        ops.urlsafe_b64decode (get_value_from_tuples AUTH_TOKEN_HEADER metadata)
      let client_public_key := ops.bytes_to_public_key client_public_key_bytes
      let shared_secret :=
        ops.generate_shared_key self.server_private_key client_public_key
      if ops.verify_hmac shared_secret (ops.serialize_to_string request) hmac_value then
        Outcome.forwarded (message_handler request) []
      else
        Outcome.aborted StatusCode.unauthenticated "Access denied!"
    else
      Outcome.aborted StatusCode.unauthenticated "Access denied!"
  else
    Outcome.aborted StatusCode.unauthenticated "Access denied!"

/-- Lock, metadata, handler and abort events of one intercepted call. -/
inductive Event where
  | lockAcquire
  | lockRelease
  | sendInitialMetadata
  | handlerCall
  | abortCall
deriving DecidableEq, Repr

/-- Event trace of `_generic_method_handler`.  The whole body of the
source function — `return message_handler.unary_unary(request, context)`
included, line 153 — sits inside the `with self._lock:` block opened on
line 106, so `lockRelease` is emitted only at the very end (on an abort,
the `with` block's exit runs while the exception unwinds, likewise after
the abort event). -/
def generic_method_handler_trace {Priv Pub : Type} (ops : CryptoOps Priv Pub)
    (self : AuthenticateServerInterceptor Priv Pub)
    (metadata : List (String × List Nat)) (request : Request) : List Event :=
  Event.lockAcquire ::
    (if ops.urlsafe_b64decode (get_value_from_tuples PUBLIC_KEY_HEADER metadata)
        ∈ self.client_public_keys then
      if request.kind = RequestKind.createNodeRequest then
        [Event.sendInitialMetadata, Event.handlerCall]
      else if request.kind = RequestKind.deleteNodeRequest ∨
          request.kind = RequestKind.pullTaskInsRequest ∨
          request.kind = RequestKind.pushTaskResRequest then
        if ops.verify_hmac
            (ops.generate_shared_key self.server_private_key
              (ops.bytes_to_public_key
                (ops.urlsafe_b64decode
                  (get_value_from_tuples PUBLIC_KEY_HEADER metadata))))
            (ops.serialize_to_string request)
            (ops.urlsafe_b64decode (get_value_from_tuples AUTH_TOKEN_HEADER metadata))
        then [Event.handlerCall]
        else [Event.abortCall]
      else [Event.abortCall]
    else [Event.abortCall]) ++ [Event.lockRelease]

/-- The events strictly between the first `lockAcquire` and the following
`lockRelease` of a trace: the events executed while the lock is held. -/
def events_under_lock (tr : List Event) : List Event :=
  ((tr.dropWhile (fun e => e != Event.lockAcquire)).drop 1).takeWhile
    (fun e => e != Event.lockRelease)

def runs_under_lock (tr : List Event) (e : Event) : Bool :=
  (events_under_lock tr).contains e

/-- The authentication-success condition as the spec words it: the decoded
`public-key` header value is registered, and the request is a
`CreateNodeRequest` or one of the three state-changing kinds with a
verifying HMAC. -/
def specForwardCondition {Priv Pub : Type} (ops : CryptoOps Priv Pub)
    (self : AuthenticateServerInterceptor Priv Pub)
    (metadata : List (String × List Nat)) (request : Request) : Prop :=
  ops.urlsafe_b64decode (get_value_from_tuples PUBLIC_KEY_HEADER metadata)
      ∈ self.client_public_keys ∧
  (request.kind = RequestKind.createNodeRequest ∨
    ((request.kind = RequestKind.deleteNodeRequest ∨
      request.kind = RequestKind.pullTaskInsRequest ∨
      request.kind = RequestKind.pushTaskResRequest) ∧
     ops.verify_hmac
       (ops.generate_shared_key self.server_private_key
         (ops.bytes_to_public_key
           (ops.urlsafe_b64decode (get_value_from_tuples PUBLIC_KEY_HEADER metadata))))
       (ops.serialize_to_string request)
       (ops.urlsafe_b64decode (get_value_from_tuples AUTH_TOKEN_HEADER metadata))
       = true))

/-! ### Concrete fixtures used by the witness theorems -/

/-- Concrete instantiation of the external primitives, over `Nat` keys:
the byte codec is the identity, shared secrets pair up the two keys, and
an HMAC token verifies exactly when it equals secret ++ body. -/
def opsW : CryptoOps Nat Nat where
  urlsafe_b64decode := fun b => b
  urlsafe_b64encode := fun b => b
  public_key_to_bytes := fun k => [k]
  bytes_to_public_key := fun b => b.headD 0
  generate_shared_key := fun sk pk => [sk, pk]
  verify_hmac := fun secret body token => token == secret ++ body
  serialize_to_string := fun r => r.payload

/-- Interceptor with server key pair (7, 11) and one registered client
public key, the byte string `[1]`. -/
def interceptorW : AuthenticateServerInterceptor Nat Nat where
  server_private_key := 7
  server_public_key := 11
  client_public_keys := [[1]]

/-- Downstream handler returning the request's payload length. -/
def handlerW : Request → Nat := fun r => r.payload.length

/-- Metadata carrying the registered key and a token that verifies under
`opsW` for a request whose payload is `[2]`. -/
def metadataW : List (String × List Nat) :=
  [("public-key", [1]), ("auth-token", [7, 1, 2])]

/-! ## Driver client (`driver.py`)

`RetryInvoker`, `GrpcDriver` and the `exponential` wait generator live
outside the given sources; the invoker is modelled as the record of
constructor arguments `Driver.__init__` passes, with the wait generator
as a tag. -/

structure RpcErr where
  code : StatusCode
deriving DecidableEq, Repr

inductive WaitGenKind where
  | exponential
  | constant_interval
deriving DecidableEq, Repr

structure RetryInvoker where
  wait_gen : WaitGenKind
  max_tries : Nat
  max_time : Nat
  should_giveup : RpcErr → Bool

/-- The `RetryInvoker(...)` construction in `Driver.__init__`, lines 71–78:
`err_codes = (StatusCode.UNAVAILABLE,)` and
`should_giveup = lambda e: e.code() not in err_codes`. -/
def driver_default_invoker : RetryInvoker :=
  let err_codes : List StatusCode := [StatusCode.unavailable]
  { wait_gen := WaitGenKind.exponential
    max_tries := 10
    max_time := 300
    should_giveup := fun e => !(err_codes.contains e.code) }

/-- The `if invoker is None` branch of `Driver.__init__`. -/
def driver_init_invoker : Option RetryInvoker → RetryInvoker
  | none => driver_default_invoker
  | some invoker => invoker

/-- Method names defined on the `Driver` class of `driver.py`. -/
def driver_method_names : List String :=
  ["__init__", "_get_grpc_driver_and_workload_id", "get_nodes",
   "push_task_ins", "pull_task_res", "__del__"]

/-- Instance attributes assigned in `Driver.__init__` (the class body
defines no further class-level attributes). -/
def driver_init_attributes : List String :=
  ["addr", "root_certificates", "grpc_driver", "run_id", "node", "lock",
   "invoker"]

/-- Names imported at the top of `driver.py`. -/
def driver_module_imports : List String :=
  ["Lock", "Iterable", "List", "Optional", "Tuple", "cast", "RpcError",
   "StatusCode", "RetryInvoker", "exponential", "DEFAULT_SERVER_ADDRESS_DRIVER",
   "GrpcDriver", "CreateRunRequest", "GetNodesRequest", "GetNodesResponse",
   "PullTaskResRequest", "PullTaskResResponse", "PushTaskInsRequest",
   "PushTaskInsResponse", "Node", "TaskIns", "TaskRes"]

/-- The helper name `Driver.push_task_ins` (line 110, likewise `get_nodes`
and `pull_task_res`) invokes on `self`. -/
def driver_push_task_ins_helper : String := "_get_grpc_driver_and_run_id"

/-- The attribute of `self` the body of `_get_grpc_driver_and_workload_id`
reads before any assignment to it could have happened (line 84). -/
def driver_helper_attribute_used : String := "workload_id"

/-- The module-level name the body of `_get_grpc_driver_and_workload_id`
calls (line 91). -/
def driver_helper_import_used : String := "CreateWorkloadRequest"

/-! ## Theorems -/

/-- C1: `is_valid_task` returns `true` exactly when the consumer satisfies
the anonymous/node_id coupling, a present producer satisfies the same
coupling, and — for a `TaskRes` — the ancestry list is non-empty. -/
theorem is_valid_task_iff_spec (m : TaskMessage) :
    is_valid_task m = true ↔ specValidTask m := by
  unfold is_valid_task specValidTask producer_invalid
  rcases hp : m.task.producer with _ | p <;>
    cases hc : m.task.consumer.anonymous <;>
      cases hr : m.isRes <;>
        simp [hp, hc, hr, List.isEmpty_iff, imp_false, Decidable.not_not] <;>
          (intros; cases hpa : p.anonymous <;> simp [hpa])

/-- C10: a `TaskIns` whose consumer (and producer, when present) satisfies
the anonymous/node_id coupling is valid even with empty ancestry: the
non-empty-ancestry requirement applies only to `TaskRes`. -/
theorem is_valid_task_ins_ignores_ancestry (t : TaskIns)
    (hc : (t.task.consumer.anonymous = true → t.task.consumer.node_id = 0) ∧
          (t.task.consumer.anonymous = false → t.task.consumer.node_id ≠ 0))
    (hprod : ∀ p, t.task.producer = some p →
      (p.anonymous = true → p.node_id = 0) ∧ (p.anonymous = false → p.node_id ≠ 0)) :
    is_valid_task (.ins t) = true := by
  rw [is_valid_task_iff_spec]
  exact ⟨hc, hprod, by simp [TaskMessage.isRes]⟩

/-- Witness for C10: a concrete non-anonymous `TaskIns` with empty ancestry
is accepted by `is_valid_task`. -/
theorem is_valid_task_ins_ignores_ancestry_witness :
    is_valid_task (.ins ⟨"", 1, ⟨none, ⟨7, false⟩, "", []⟩⟩) = true :=
  is_valid_task_ins_ignores_ancestry ⟨"", 1, ⟨none, ⟨7, false⟩, "", []⟩⟩
    (by constructor <;> intro h <;> simp_all) (by intro p hp; simp_all)

theorem mark_delivered_filter (node_id : Option Int) (now : String)
    (h : now ≠ "") (t : TaskIns) :
    task_ins_filter node_id (mark_delivered now t) = false := by
  cases node_id <;>
    simp [task_ins_filter, mark_delivered, h]

theorem get_task_ins_go_fst (node_id : Option Int) (now : String) :
    ∀ (s : List TaskIns) (n : Nat),
      (get_task_ins_go node_id now s n).1 =
        ((s.filter (task_ins_filter node_id)).take n).map (mark_delivered now)
  | _, 0 => by simp [get_task_ins_go]
  | [], _ + 1 => by simp [get_task_ins_go]
  | t :: ts, n + 1 => by
      by_cases h : task_ins_filter node_id t
      · simp [get_task_ins_go, h, List.filter_cons,
          get_task_ins_go_fst node_id now ts n]
      · simp [get_task_ins_go, h, List.filter_cons,
          get_task_ins_go_fst node_id now ts (n + 1)]

theorem get_task_ins_go_snd_filter (node_id : Option Int) (now : String)
    (hnow : now ≠ "") :
    ∀ (s : List TaskIns) (n : Nat),
      (get_task_ins_go node_id now s n).2.filter (task_ins_filter node_id) =
        (s.filter (task_ins_filter node_id)).drop n
  | _, 0 => by simp [get_task_ins_go]
  | [], _ + 1 => by simp [get_task_ins_go]
  | t :: ts, n + 1 => by
      by_cases h : task_ins_filter node_id t
      · simp [get_task_ins_go, h, List.filter_cons,
          mark_delivered_filter node_id now hnow,
          get_task_ins_go_snd_filter node_id now hnow ts n]
      · simp [get_task_ins_go, h, List.filter_cons,
          get_task_ins_go_snd_filter node_id now hnow ts (n + 1)]

theorem get_task_ins_go_snd_length (node_id : Option Int) (now : String) :
    ∀ (s : List TaskIns) (n : Nat),
      (get_task_ins_go node_id now s n).2.length = s.length
  | _, 0 => by simp [get_task_ins_go]
  | [], _ + 1 => by simp [get_task_ins_go]
  | t :: ts, n + 1 => by
      by_cases h : task_ins_filter node_id t
      · simp [get_task_ins_go, h, get_task_ins_go_snd_length node_id now ts n]
      · simp [get_task_ins_go, h, get_task_ins_go_snd_length node_id now ts (n + 1)]

/-- C5: at-most-once delivery.  The first call returns exactly the first
`limit`-many undelivered matching instructions, each with `delivered_at`
stamped to the current time by the call itself; the store afterwards keeps
only the remaining ones undelivered, so a second call — any limit, any
later time — returns only instructions from the dropped remainder and can
never return an instruction the first call already returned. -/
theorem get_task_ins_at_most_once (s : List TaskIns) (node_id : Option Int)
    (limit limit' : Option Nat) (now now' : String) (hnow : now ≠ "") :
    (∀ t ∈ (get_task_ins s node_id limit now).1, t.task.delivered_at = now) ∧
    (get_task_ins s node_id limit now).1 =
      ((s.filter (task_ins_filter node_id)).take (eff_limit limit s)).map
        (mark_delivered now) ∧
    (get_task_ins ((get_task_ins s node_id limit now).2) node_id limit' now').1 =
      (((s.filter (task_ins_filter node_id)).drop (eff_limit limit s)).take
        (eff_limit limit' ((get_task_ins s node_id limit now).2))).map
        (mark_delivered now') := by
  refine ⟨?_, ?_, ?_⟩
  · intro t ht
    rw [get_task_ins, get_task_ins_go_fst] at ht
    rcases List.mem_map.mp ht with ⟨u, _, hu⟩
    subst hu
    rfl
  · exact get_task_ins_go_fst node_id now s (eff_limit limit s)
  · rw [get_task_ins, get_task_ins, get_task_ins_go_fst,
      get_task_ins_go_snd_filter node_id now hnow]

/-- Witness for C5: storing one undelivered instruction for node 7, the
first `get_task_ins(7, None)` returns it stamped, and a second identical
call returns nothing. -/
theorem get_task_ins_at_most_once_witness :
    (get_task_ins [⟨"a", 1, ⟨none, ⟨7, false⟩, "", ["x"]⟩⟩] (some 7) none "t1").1 =
      [⟨"a", 1, ⟨none, ⟨7, false⟩, "t1", ["x"]⟩⟩] ∧
    (get_task_ins ((get_task_ins [⟨"a", 1, ⟨none, ⟨7, false⟩, "", ["x"]⟩⟩]
        (some 7) none "t1").2) (some 7) none "t2").1 = [] := by
  have h := get_task_ins_at_most_once [⟨"a", 1, ⟨none, ⟨7, false⟩, "", ["x"]⟩⟩]
    (some 7) none none "t1" "t2" (by decide)
  refine ⟨?_, ?_⟩
  · rw [h.2.1]; decide
  · rw [h.2.2]; decide

/-- C2: the interceptor forwards to the wrapped handler exactly under
`specForwardCondition`; on success the forwarded response is the wrapped
handler's; in every other case the call is aborted with `UNAUTHENTICATED`
and the fixed message, and the handler is never invoked. -/
theorem interceptor_forwards_iff_authenticated {Priv Pub Resp : Type}
    (ops : CryptoOps Priv Pub) (self : AuthenticateServerInterceptor Priv Pub)
    (message_handler : Request → Resp) (metadata : List (String × List Nat))
    (request : Request) :
    ((generic_method_handler ops self message_handler metadata request).isForwarded
        = true ↔ specForwardCondition ops self metadata request) ∧
    (specForwardCondition ops self metadata request →
      ∃ md, generic_method_handler ops self message_handler metadata request =
        Outcome.forwarded (message_handler request) md) ∧
    (¬ specForwardCondition ops self metadata request →
      generic_method_handler ops self message_handler metadata request =
        Outcome.aborted StatusCode.unauthenticated "Access denied!" ∧
      Event.handlerCall ∉ generic_method_handler_trace ops self metadata request) := by
  by_cases hk : ops.urlsafe_b64decode (get_value_from_tuples PUBLIC_KEY_HEADER metadata)
      ∈ self.client_public_keys
  · rcases hkind : request.kind <;>
      by_cases hv : ops.verify_hmac
          (ops.generate_shared_key self.server_private_key
            (ops.bytes_to_public_key
              (ops.urlsafe_b64decode (get_value_from_tuples PUBLIC_KEY_HEADER metadata))))
          (ops.serialize_to_string request)
          (ops.urlsafe_b64decode (get_value_from_tuples AUTH_TOKEN_HEADER metadata))
          = true <;>
        simp [generic_method_handler, generic_method_handler_trace,
          specForwardCondition, Outcome.isForwarded, hk, hv, hkind]
  · simp [generic_method_handler, generic_method_handler_trace,
      specForwardCondition, Outcome.isForwarded, hk]

/-- Witness for C2: a request of an unrecognized kind is not forwarded even
with a registered key. -/
theorem interceptor_forwards_iff_authenticated_witness :
    generic_method_handler opsW interceptorW handlerW metadataW
      ⟨RequestKind.otherRequest, []⟩ =
      Outcome.aborted StatusCode.unauthenticated "Access denied!" :=
  ((interceptor_forwards_iff_authenticated opsW interceptorW handlerW metadataW
    ⟨RequestKind.otherRequest, []⟩).2.2
    (by unfold specForwardCondition; decide)).1

/-- C3: for a `DeleteNodeRequest`, `PullTaskInsRequest` or
`PushTaskResRequest` whose public key is registered, the outcome is decided
by verifying the HMAC of the deterministically serialized request body
under the ECDH shared secret of the server private key and the decoded
client public key, against the decoded `auth-token` header: forwarded on
success, aborted `UNAUTHENTICATED` on mismatch. -/
theorem interceptor_hmac_verification {Priv Pub Resp : Type}
    (ops : CryptoOps Priv Pub) (self : AuthenticateServerInterceptor Priv Pub)
    (message_handler : Request → Resp) (metadata : List (String × List Nat))
    (request : Request)
    (hkind : request.kind = RequestKind.deleteNodeRequest ∨
      request.kind = RequestKind.pullTaskInsRequest ∨
      request.kind = RequestKind.pushTaskResRequest)
    (hknown : ops.urlsafe_b64decode (get_value_from_tuples PUBLIC_KEY_HEADER metadata)
      ∈ self.client_public_keys) :
    generic_method_handler ops self message_handler metadata request =
      if ops.verify_hmac
          (ops.generate_shared_key self.server_private_key
            (ops.bytes_to_public_key
              (ops.urlsafe_b64decode (get_value_from_tuples PUBLIC_KEY_HEADER metadata))))
          (ops.serialize_to_string request)
          (ops.urlsafe_b64decode (get_value_from_tuples AUTH_TOKEN_HEADER metadata))
      then Outcome.forwarded (message_handler request) []
      else Outcome.aborted StatusCode.unauthenticated "Access denied!" := by
  have hnc : ¬ request.kind = RequestKind.createNodeRequest := by
    rcases hkind with h | h | h <;> simp [h]
  simp [generic_method_handler, hknown, hnc, hkind]

/-- Witness for C3: a concrete `DeleteNodeRequest` with a registered key
and a matching HMAC token is forwarded. -/
theorem interceptor_hmac_verification_witness :
    generic_method_handler opsW interceptorW handlerW metadataW
      ⟨RequestKind.deleteNodeRequest, [2]⟩ = Outcome.forwarded 1 [] := by
  rw [interceptor_hmac_verification opsW interceptorW handlerW metadataW
    ⟨RequestKind.deleteNodeRequest, [2]⟩ (by decide) (by decide)]
  decide

/-- C4: for a `CreateNodeRequest` with a registered key, the call is
forwarded and the initial metadata sent during the call — before the
handler runs, as the trace shows — carries the server's public key,
base64url-encoded, under the `public-key` header. -/
theorem interceptor_create_node_sends_server_key {Priv Pub Resp : Type}
    (ops : CryptoOps Priv Pub) (self : AuthenticateServerInterceptor Priv Pub)
    (message_handler : Request → Resp) (metadata : List (String × List Nat))
    (request : Request)
    (hkind : request.kind = RequestKind.createNodeRequest)
    (hknown : ops.urlsafe_b64decode (get_value_from_tuples PUBLIC_KEY_HEADER metadata)
      ∈ self.client_public_keys) :
    generic_method_handler ops self message_handler metadata request =
      Outcome.forwarded (message_handler request)
        [(PUBLIC_KEY_HEADER,
          ops.urlsafe_b64encode (ops.public_key_to_bytes self.server_public_key))] ∧
    generic_method_handler_trace ops self metadata request =
      [Event.lockAcquire, Event.sendInitialMetadata, Event.handlerCall,
        Event.lockRelease] := by
  constructor <;>
    simp [generic_method_handler, generic_method_handler_trace, hknown, hkind]

/-- Witness for C4: a concrete `CreateNodeRequest` with a registered key
receives the server key `[11]` in the response's initial metadata. -/
theorem interceptor_create_node_sends_server_key_witness :
    generic_method_handler opsW interceptorW handlerW metadataW
      ⟨RequestKind.createNodeRequest, []⟩ =
      Outcome.forwarded 0 [("public-key", [11])] := by
  rw [(interceptor_create_node_sends_server_key opsW interceptorW handlerW metadataW
    ⟨RequestKind.createNodeRequest, []⟩ rfl (by decide)).1]
  decide

/-- C9: with no `public-key` entry in the invocation metadata, the header
lookup yields the empty byte string, whose base64url decoding is empty; if
the empty byte string is not a registered key, the call is aborted
`UNAUTHENTICATED`. -/
theorem interceptor_missing_public_key_header {Priv Pub Resp : Type}
    (ops : CryptoOps Priv Pub) (self : AuthenticateServerInterceptor Priv Pub)
    (message_handler : Request → Resp) (metadata : List (String × List Nat))
    (request : Request)
    (hmissing : ∀ p ∈ metadata, p.1 ≠ PUBLIC_KEY_HEADER)
    (hdec : ops.urlsafe_b64decode [] = [])
    (habsent : ([] : List Nat) ∉ self.client_public_keys) :
    ops.urlsafe_b64decode (get_value_from_tuples PUBLIC_KEY_HEADER metadata) = [] ∧
    generic_method_handler ops self message_handler metadata request =
      Outcome.aborted StatusCode.unauthenticated "Access denied!" := by
  have hval : get_value_from_tuples PUBLIC_KEY_HEADER metadata = [] := by
    rw [get_value_from_tuples, List.find?_eq_none.mpr]
    intro p hp
    simpa using hmissing p hp
  have hk : ¬ ops.urlsafe_b64decode (get_value_from_tuples PUBLIC_KEY_HEADER metadata)
      ∈ self.client_public_keys := by
    rw [hval, hdec]; exact habsent
  exact ⟨by rw [hval, hdec], by simp [generic_method_handler, hk]⟩

/-- Witness for C9: empty metadata with key set `[[1]]` ends in an abort. -/
theorem interceptor_missing_public_key_header_witness :
    generic_method_handler opsW interceptorW handlerW []
      ⟨RequestKind.createNodeRequest, []⟩ =
      Outcome.aborted StatusCode.unauthenticated "Access denied!" :=
  (interceptor_missing_public_key_header opsW interceptorW handlerW []
    ⟨RequestKind.createNodeRequest, []⟩ (by simp) (by decide) (by decide)).2

/-- C8 counterexample: in the source the downstream handler is invoked on
line 153, inside the `with self._lock:` block opened on line 106 — the
`handlerCall` event of a forwarded concrete call lies strictly between
`lockAcquire` and `lockRelease`, refuting the claim that the lock is not
held while the wrapped handler executes. -/
theorem interceptor_lock_covers_handler_cex :
    runs_under_lock
      (generic_method_handler_trace opsW interceptorW metadataW
        ⟨RequestKind.createNodeRequest, []⟩)
      Event.handlerCall = true := by
  decide

/-- C8 as amended: whenever the wrapped handler is invoked at all, it is
invoked while the interceptor's lock is held — the lock covers the
authentication steps and the downstream handler alike. -/
theorem interceptor_lock_covers_handler {Priv Pub : Type}
    (ops : CryptoOps Priv Pub) (self : AuthenticateServerInterceptor Priv Pub)
    (metadata : List (String × List Nat)) (request : Request)
    (h : Event.handlerCall ∈ generic_method_handler_trace ops self metadata request) :
    runs_under_lock (generic_method_handler_trace ops self metadata request)
      Event.handlerCall = true := by
  unfold generic_method_handler_trace at h ⊢
  split_ifs at h ⊢ <;> revert h <;> decide

/-- Witness for the amended C8: a forwarded `DeleteNodeRequest` call runs
its handler under the lock. -/
theorem interceptor_lock_covers_handler_witness :
    runs_under_lock
      (generic_method_handler_trace opsW interceptorW metadataW
        ⟨RequestKind.deleteNodeRequest, [2]⟩)
      Event.handlerCall = true :=
  interceptor_lock_covers_handler opsW interceptorW metadataW
    ⟨RequestKind.deleteNodeRequest, [2]⟩ (by decide)

/-- C7: a `Driver` constructed without an explicit invoker gets a
`RetryInvoker` with exponential backoff, 10 attempts, a 300-second budget,
and a give-up predicate holding exactly when the error's status code is
not `UNAVAILABLE`. -/
theorem driver_default_retry_policy :
    (driver_init_invoker none).wait_gen = WaitGenKind.exponential ∧
    (driver_init_invoker none).max_tries = 10 ∧
    (driver_init_invoker none).max_time = 300 ∧
    ∀ e : RpcErr, (driver_init_invoker none).should_giveup e = true ↔
      e.code ≠ StatusCode.unavailable := by
  refine ⟨rfl, rfl, rfl, ?_⟩
  intro e
  rcases e with ⟨c⟩
  cases c <;> decide

/-- C6 (code-bug evidence): `Driver.push_task_ins` (like `get_nodes` and
`pull_task_res`) invokes `self._get_grpc_driver_and_run_id()`, but no such
method exists on the class — the defined helper is
`_get_grpc_driver_and_workload_id` — so every call raises `AttributeError`
before any connection or stamping happens; moreover that helper itself
reads the never-assigned attribute `self.workload_id` and calls the
never-imported name `CreateWorkloadRequest`. -/
theorem driver_push_task_ins_name_resolution_fails :
    driver_push_task_ins_helper ∉ driver_method_names ∧
    driver_helper_attribute_used ∉ driver_init_attributes ∧
    driver_helper_import_used ∉ driver_module_imports := by
  decide

end Flower
